import Mathlib

/-!
Verification of the notes frontend (src/notes_frontend/src/api.js,
src/notes_frontend/src/NotesLayout.js) against its specification.

The JavaScript is shallowly embedded:
- a Note is a record of id, title, content and an updatedAt timestamp
  (ISO-8601 strings increase with time, so updatedAt is modelled as a Nat);
- fallible async functions are modelled as functions returning Except String,
  the error string being the thrown Error message;
- the network is an oracle parameter: each API-client operation takes the
  result the remote fetch would produce (Except.ok payload, or Except.error
  for a network failure or non-2xx response handled by handleResponse);
- process-wide mutable state (the fallback dataset, the React component
  state) is passed explicitly.
-/

/-- A note as held by api.js and NotesLayout.js:
fields id, title, content, updatedAt. -/
structure Note where
  id : String
  title : String
  content : String
  updatedAt : Nat
deriving DecidableEq

/-- A create/update payload: optional title and content fields.
A missing field is none; the empty string is a present (falsy) field. -/
structure Payload where
  title : Option String
  content : Option String
deriving DecidableEq

/-- JavaScript "x || d" for an optional string x: undefined or the empty
string give the default d (used for payload.title and the "e.message ||"
pattern). -/
def jsOrStr (o : Option String) (d : String) : String :=
  match o with
  | none => d
  | some s => if s = "" then d else s

/-- API-client configuration: the resolved base URL (the empty string means
no remote backend configured, from getApiBase) and whether the feature-flag
list contains "fallback" (enableFallback in api.js). -/
structure Config where
  apiBase : String
  enableFallback : Bool
deriving DecidableEq

/-- True when an Except value carries an error. -/
def isErr {ε α : Type} : Except ε α → Bool
  | .error _ => true
  | .ok _ => false

/-- The control flow shared by every api.js operation:
if a base URL is configured, try the remote call; a remote failure is
rethrown when fallback is disabled; with no base URL or a swallowed remote
failure, throw the unavailable error when fallback is disabled, otherwise
run the fallback body. -/
def runOp {α : Type} (cfg : Config) (remote : Except String α)
    (fb : Unit → Except String α) : Except String α :=
  if cfg.apiBase ≠ "" then
    match remote with
    | .ok v => .ok v
    | .error e => if !cfg.enableFallback then .error e else fb ()
  else
    if !cfg.enableFallback then .error "Backend unavailable and fallback disabled."
    else fb ()

/-- Stable insertion (descending by updatedAt) used to model the fallback
list sort: Array.prototype.sort is stable, and with the comparator
(a, b) => dateB - dateA it produces the stable descending order. -/
def insertDesc (x : Note) : List Note → List Note
  | [] => [x]
  | y :: ys => if y.updatedAt ≤ x.updatedAt then x :: y :: ys else y :: insertDesc x ys

/-- The sort performed by the fallback listNotes:
entries ordered by updatedAt descending, equal keys keeping their order. -/
def sortByUpdatedAtDesc : List Note → List Note
  | [] => []
  | x :: xs => insertDesc x (sortByUpdatedAtDesc xs)

/-- The seeded fallback dataset (fallbackNotes in api.js); the seed's
updatedAt is the module-load time t. -/
def fallbackNotes (t : Nat) : List Note :=
  [{ id := "1", title := "Welcome to Notes",
     content := "This is a demo note from the fallback store.", updatedAt := t }]

/-- Fallback branch of getNote: find the note by id, throw "Note not found"
when absent. -/
def getNoteFB (i : String) (s : List Note) : Except String Note :=
  match s.find? (fun n => n.id = i) with
  | some n => .ok n
  | none => .error "Note not found"

/-- The note built by the fallback createNote from a freshly generated
random id, the current time, and the payload (empty/missing title becomes
"Untitled", empty/missing content becomes ""). -/
def mkFallbackNote (newId : String) (now : Nat) (p : Payload) : Note :=
  { id := newId, title := jsOrStr p.title "Untitled",
    content := jsOrStr p.content "", updatedAt := now }

/-- Fallback branch of updateNote: findIndex locates the first note whose id
matches, throwing "Note not found" on -1; the located entry is replaced by
the merge of its fields with the payload and a refreshed updatedAt, and the
updated note is returned. Modelled as structural recursion replacing the
first match. -/
def updateNoteFB (now : Nat) (i : String) (p : Payload) :
    List Note → Except String (Note × List Note)
  | [] => .error "Note not found"
  | n :: rest =>
    if n.id = i then
      let updated : Note :=
        { id := n.id, title := p.title.getD n.title,
          content := p.content.getD n.content, updatedAt := now }
      .ok (updated, updated :: rest)
    else
      match updateNoteFB now i p rest with
      | .error e => .error e
      | .ok (u, rest') => .ok (u, n :: rest')

/-- listNotes: remote GET /notes, else fallback returning the dataset sorted
by updatedAt descending (the dataset itself is unchanged). -/
def listNotesApi (cfg : Config) (remote : Except String (List Note))
    (s : List Note) : Except String (List Note) :=
  runOp cfg remote (fun _ => .ok (sortByUpdatedAtDesc s))

/-- getNote: remote GET /notes/:id, else fallback lookup. -/
def getNoteApi (cfg : Config) (remote : Except String Note) (i : String)
    (s : List Note) : Except String Note :=
  runOp cfg remote (fun _ => getNoteFB i s)

/-- createNote: remote POST /notes (leaving the fallback dataset unchanged),
else fallback prepending a new note with a generated id; returns the created
note and the resulting dataset. -/
def createNoteApi (cfg : Config) (remote : Except String Note) (newId : String)
    (now : Nat) (p : Payload) (s : List Note) : Except String (Note × List Note) :=
  runOp cfg (remote.map (fun n => (n, s)))
    (fun _ =>
      let newNote := mkFallbackNote newId now p
      .ok (newNote, newNote :: s))

/-- updateNote: remote PUT /notes/:id, else the fallback replacement. -/
def updateNoteApi (cfg : Config) (remote : Except String Note) (now : Nat)
    (i : String) (p : Payload) (s : List Note) : Except String (Note × List Note) :=
  runOp cfg (remote.map (fun n => (n, s))) (fun _ => updateNoteFB now i p s)

/-- deleteNote: remote DELETE /notes/:id returning true, else the fallback
filters the dataset by id and returns true (with no not-found check). -/
def deleteNoteApi (cfg : Config) (remote : Except String Unit) (i : String)
    (s : List Note) : Except String (Bool × List Note) :=
  runOp cfg (remote.map (fun _ => (true, s)))
    (fun _ => .ok (true, s.filter (fun n => n.id ≠ i)))

/-- Load status of the view state store (useNotes in NotesLayout.js). -/
inductive Status where
  | idle
  | loading
  | error
  | success
deriving DecidableEq

/-- The view state store held by useNotes: the notes collection, the load
status and the error message. -/
structure Store where
  notes : List Note
  status : Status
  error : String
deriving DecidableEq

/-- The store refresh() operation, applied to the result of listNotes
(ok data possibly null, or a thrown message): status is set to loading and
the error cleared, then on success the notes become data or the empty list
and status success; on failure status error and the message (or the default
when the message is empty), the notes untouched. -/
def refreshStore (st : Store) (res : Except String (Option (List Note))) : Store :=
  match res with
  | .ok data => { notes := data.getD [], status := .success, error := "" }
  | .error e => { notes := st.notes, status := .error, error := jsOrStr (some e) "Failed to load notes" }

/-- The UI mode of NotesLayout. -/
inductive Mode where
  | empty
  | viewing
  | editing
  | creating
deriving DecidableEq

/-- The NotesLayout component state the orchestration handlers mutate:
the notes collection (shared with the store), the active note id
(null modelled as none) and the UI mode. -/
structure UIState where
  notes : List Note
  activeId : Option String
  mode : Mode
deriving DecidableEq

/-- The initial NotesLayout state: no notes, no active id, mode empty. -/
def initState : UIState := { notes := [], activeId := none, mode := .empty }

/-- JavaScript falsiness of the activeId value: null or the empty string. -/
def idFalsy : Option String → Bool
  | none => true
  | some s => s = ""

/-- The reactive effect of NotesLayout (dependencies notes and activeId):
a non-empty collection with a falsy active id activates the first note and
mode viewing; an empty collection clears the active id and sets mode empty. -/
def applyEffect (s : UIState) : UIState :=
  match s.notes with
  | [] => { s with activeId := none, mode := .empty }
  | n :: _ => if idFalsy s.activeId then { s with activeId := some n.id, mode := .viewing } else s

/-- activeNote: the first note whose id equals the active id
(none when no id is active). -/
def findActive (s : UIState) : Option Note :=
  match s.activeId with
  | none => none
  | some i => s.notes.find? (fun n => n.id = i)

/-- The temporary id generated by handleSave in creating mode from the
current Date.now() value. -/
def mkTempId (nowMs : Nat) : String := "temp_" ++ toString nowMs

/-- The optimistic note prepended by handleSave in creating mode. -/
def mkOptimistic (nowMs : Nat) (p : Payload) : Note :=
  { id := mkTempId nowMs, title := jsOrStr p.title "Untitled",
    content := jsOrStr p.content "", updatedAt := nowMs }

/-- The merge performed by handleSave in editing mode: spread of the active
note, then the payload fields, then a refreshed updatedAt. -/
def mergeNote (a : Note) (p : Payload) (nowMs : Nat) : Note :=
  { id := a.id, title := p.title.getD a.title,
    content := p.content.getD a.content, updatedAt := nowMs }

/-- One synchronous batch of state updates of the NotesLayout handlers.
Each constructor is the segment of a handler between two await points (or a
store refresh outcome); parameters carry what the segment reads from the
environment (clock, server responses, captured closure variables). -/
inductive Event where
  | refreshOk (data : List Note)
  | refreshErr
  | select (i : String)
  | createClick
  | saveCreatingOpt (nowMs : Nat) (p : Payload)
  | saveCreatingDone (tempId : String) (created : Note)
  | saveCreatingFail
  | editOpt (nowMs : Nat) (p : Payload)
  | editDone
  | deleteOpt
  | deleteDone (snapshot : List Note) (deletedId : String)
deriving DecidableEq

/-- The state written by one event batch, together with whether setNotes was
called (a setNotes call always produces a fresh array object, so it always
counts as an effect-dependency change). -/
def stepEvent : Event → UIState → UIState × Bool
  | .refreshOk data, s => ({ s with notes := data }, true)
  | .refreshErr, s => (s, false)
  | .select i, s => ({ s with activeId := some i, mode := .viewing }, false)
  | .createClick, s => ({ s with mode := .creating, activeId := none }, false)
  | .saveCreatingOpt nowMs p, s =>
    if s.mode = .creating then
      ({ s with notes := mkOptimistic nowMs p :: s.notes,
                activeId := some (mkTempId nowMs), mode := .viewing }, true)
    else (s, false)
  | .saveCreatingDone tempId created, s =>
    ({ s with notes := created :: s.notes.filter (fun n => n.id ≠ tempId),
              activeId := some created.id, mode := .viewing }, true)
  | .saveCreatingFail, s => (s, false)
  | .editOpt nowMs p, s =>
    if s.mode = .editing then
      match findActive s with
      | some a =>
        ({ s with notes := s.notes.map (fun n => if n.id = a.id then mergeNote a p nowMs else n) }, true)
      | none => (s, false)
    else (s, false)
  | .editDone, s => ({ s with mode := .viewing }, false)
  | .deleteOpt, s =>
    match findActive s with
    | some a =>
      ({ s with notes := s.notes.filter (fun n => n.id ≠ a.id),
                activeId := none, mode := .empty }, true)
    | none => (s, false)
  | .deleteDone snapshot deletedId, s =>
    if snapshot.length > 1 then
      match snapshot.find? (fun n => n.id ≠ deletedId) with
      | some next => ({ s with activeId := some next.id, mode := .viewing }, false)
      | none => (s, false)
    else (s, false)

/-- Whether an event batch changes the effect dependencies
(notes array identity or activeId value). -/
def depsChanged (e : Event) (s : UIState) : Bool :=
  (stepEvent e s).2 || decide ((stepEvent e s).1.activeId ≠ s.activeId)

/-- One step of the UI state machine: the event batch commits, then React
runs the reactive effect exactly when its dependencies changed. -/
def uiStep (e : Event) (s : UIState) : UIState :=
  if (stepEvent e s).2 || (stepEvent e s).1.activeId ≠ s.activeId then
    applyEffect (stepEvent e s).1
  else (stepEvent e s).1

/-- Run a sequence of event batches from a state. -/
def runTrace : UIState → List Event → UIState
  | s, [] => s
  | s, e :: es => runTrace (uiStep e s) es

/-- The ids of a notes collection. -/
def noteIds (l : List Note) : List String := l.map Note.id

/-- Environment assumptions of the data model for one event: the mocked
backend returns collections with unique ids, the generated temporary id is
distinct from every id in the collection, and the server-assigned id of a
created note is distinct from every other id in the collection. -/
def eventOK (s : UIState) : Event → Bool
  | .refreshOk data => decide (noteIds data).Nodup
  | .saveCreatingOpt nowMs _ => decide (mkTempId nowMs ∉ noteIds s.notes)
  | .saveCreatingDone tempId created =>
    decide (created.id ∉ noteIds (s.notes.filter (fun n => n.id ≠ tempId)))
  | _ => true

/-- Environment assumptions along a whole trace. -/
def traceOK : UIState → List Event → Bool
  | _, [] => true
  | s, e :: es => eventOK s e && traceOK (uiStep e s) es

/-- One full run of handleDelete: requires an active note and confirmation;
optimistically removes the note, clears the active id, sets mode empty (one
batch, then the effect); then on server success selects the first
differing-id note of the pre-deletion snapshot when more than one note was
present; on server failure triggers refresh() (the returned flag). -/
def runDelete (s : UIState) (confirmed : Bool) (delRes : Except String Bool) :
    UIState × Bool :=
  match findActive s with
  | none => (s, false)
  | some a =>
    if !confirmed then (s, false)
    else
      let snapshot := s.notes
      let s1 := uiStep Event.deleteOpt s
      match delRes with
      | .ok _ => (uiStep (Event.deleteDone snapshot a.id) s1, false)
      | .error _ => (s1, true)

/-- One full run of handleSave in editing mode: the optimistic merge batch,
then updateNote (updRes); on update success refresh() runs (listRes) and the
mode becomes viewing; on update failure the handler jumps to the catch block
having called neither refresh nor setMode. The returned flag records whether
refresh() was invoked. -/
def runSaveEditing (s : UIState) (nowMs : Nat) (p : Payload)
    (updRes : Except String Note) (listRes : Except String (Option (List Note))) :
    UIState × Bool :=
  if s.mode = .editing then
    match findActive s with
    | some _ =>
      let s1 := uiStep (Event.editOpt nowMs p) s
      match updRes with
      | .error _ => (s1, false)
      | .ok _ =>
        let s2 :=
          match listRes with
          | .ok data => uiStep (Event.refreshOk (data.getD [])) s1
          | .error _ => s1
        ({ s2 with mode := Mode.viewing }, true)
    | none => (s, false)
  else (s, false)

/-! ### Helper lemmas about the API client -/

theorem runOp_unavailable {α : Type} (cfg : Config) (remote : Except String α)
    (fb : Unit → Except String α) (h1 : cfg.apiBase = "")
    (h2 : cfg.enableFallback = false) :
    runOp cfg remote fb = .error "Backend unavailable and fallback disabled." := by
  simp [runOp, h1, h2]

theorem runOp_fallback {α : Type} (cfg : Config) (remote : Except String α)
    (fb : Unit → Except String α) (hfb : cfg.enableFallback = true)
    (h : cfg.apiBase = "" ∨ isErr remote = true) :
    runOp cfg remote fb = fb () := by
  rcases h with h | h
  · simp [runOp, h, hfb]
  · cases remote with
    | ok v => simp [isErr] at h
    | error e =>
      by_cases hb : cfg.apiBase = "" <;> simp [runOp, hb, hfb]

theorem updateNoteFB_not_found (now : Nat) (i : String) (p : Payload) :
    ∀ s : List Note, (∀ n ∈ s, n.id ≠ i) →
      updateNoteFB now i p s = .error "Note not found"
  | [], _ => rfl
  | n :: rest, h => by
    have hn : ¬ n.id = i := h n (List.mem_cons_self n rest)
    have ih := updateNoteFB_not_found now i p rest
      (fun m hm => h m (List.mem_cons_of_mem n hm))
    simp [updateNoteFB, hn, ih]

theorem updateNoteFB_replace_first (now : Nat) (i : String) (p : Payload)
    (orig : Note) (l2 : List Note) (hid : orig.id = i) :
    ∀ l1 : List Note, (∀ n ∈ l1, n.id ≠ i) →
      updateNoteFB now i p (l1 ++ orig :: l2)
        = .ok ({ id := orig.id, title := p.title.getD orig.title,
                 content := p.content.getD orig.content, updatedAt := now },
               l1 ++ { id := orig.id, title := p.title.getD orig.title,
                       content := p.content.getD orig.content, updatedAt := now } :: l2)
  | [], _ => by simp [updateNoteFB, hid]
  | a :: l1, h => by
    have ha : ¬ a.id = i := h a (List.mem_cons_self a l1)
    have ih := updateNoteFB_replace_first now i p orig l2 hid l1
      (fun m hm => h m (List.mem_cons_of_mem a hm))
    simp [updateNoteFB, ha, ih]

/-! ### Helper lemmas about the fallback sort -/

theorem mem_insertDesc {x z : Note} :
    ∀ {l : List Note}, z ∈ insertDesc x l ↔ z = x ∨ z ∈ l := by
  intro l
  induction l with
  | nil => simp [insertDesc]
  | cons y ys ih =>
    simp only [insertDesc]
    split
    · simp [List.mem_cons]
    · simp [List.mem_cons, ih]
      tauto

theorem insertDesc_perm (x : Note) :
    ∀ l : List Note, (insertDesc x l).Perm (x :: l)
  | [] => List.Perm.refl _
  | y :: ys => by
    simp only [insertDesc]
    split
    · exact List.Perm.refl _
    · exact ((insertDesc_perm x ys).cons y).trans (List.Perm.swap x y ys)

theorem sortByUpdatedAtDesc_perm :
    ∀ l : List Note, (sortByUpdatedAtDesc l).Perm l
  | [] => List.Perm.refl _
  | x :: xs =>
    (insertDesc_perm x (sortByUpdatedAtDesc xs)).trans
      ((sortByUpdatedAtDesc_perm xs).cons x)

theorem insertDesc_sorted (x : Note) :
    ∀ {l : List Note},
      List.Pairwise (fun a b : Note => b.updatedAt ≤ a.updatedAt) l →
      List.Pairwise (fun a b : Note => b.updatedAt ≤ a.updatedAt) (insertDesc x l) := by
  intro l
  induction l with
  | nil => intro _; simp [insertDesc]
  | cons y ys ih =>
    intro h
    rcases List.pairwise_cons.mp h with ⟨hy, hys⟩
    simp only [insertDesc]
    split
    · rename_i hc
      refine List.Pairwise.cons ?_ h
      intro z hz
      rcases List.mem_cons.mp hz with rfl | hz
      · exact hc
      · exact le_trans (hy z hz) hc
    · rename_i hc
      refine List.Pairwise.cons ?_ (ih hys)
      intro z hz
      rcases mem_insertDesc.mp hz with rfl | hz
      · exact le_of_lt (Nat.lt_of_not_le hc)
      · exact hy z hz

theorem sortByUpdatedAtDesc_sorted :
    ∀ l : List Note,
      List.Pairwise (fun a b : Note => b.updatedAt ≤ a.updatedAt)
        (sortByUpdatedAtDesc l)
  | [] => List.Pairwise.nil
  | x :: xs => insertDesc_sorted x (sortByUpdatedAtDesc_sorted xs)

theorem insertDesc_of_max (x : Note) (l : List Note)
    (h : ∀ y ∈ l, y.updatedAt ≤ x.updatedAt) : insertDesc x l = x :: l := by
  cases l with
  | nil => rfl
  | cons y ys => simp [insertDesc, h y (List.mem_cons_self y ys)]

/-! ### Claims about the API client and the store -/

/-- C9: with no base URL configured and fallback disabled, every API client
operation (list, get, create, update, delete) fails with the unavailability
error, whatever the remote oracle would have answered (so no HTTP request or
fallback action influences the result). -/
theorem c9_unavailable_error (cfg : Config) (h1 : cfg.apiBase = "")
    (h2 : cfg.enableFallback = false) :
    (∀ (remote : Except String (List Note)) (s : List Note),
      listNotesApi cfg remote s = .error "Backend unavailable and fallback disabled.")
    ∧ (∀ (remote : Except String Note) (i : String) (s : List Note),
      getNoteApi cfg remote i s = .error "Backend unavailable and fallback disabled.")
    ∧ (∀ (remote : Except String Note) (newId : String) (now : Nat) (p : Payload)
        (s : List Note),
      createNoteApi cfg remote newId now p s
        = .error "Backend unavailable and fallback disabled.")
    ∧ (∀ (remote : Except String Note) (now : Nat) (i : String) (p : Payload)
        (s : List Note),
      updateNoteApi cfg remote now i p s
        = .error "Backend unavailable and fallback disabled.")
    ∧ (∀ (remote : Except String Unit) (i : String) (s : List Note),
      deleteNoteApi cfg remote i s
        = .error "Backend unavailable and fallback disabled.") := by
  refine ⟨fun remote s => ?_, fun remote i s => ?_, fun remote newId now p s => ?_,
    fun remote now i p s => ?_, fun remote i s => ?_⟩ <;>
    apply runOp_unavailable _ _ _ h1 h2

/-- Witness for C9 at the concrete configuration with empty base URL and
fallback disabled. -/
theorem c9_unavailable_error_witness :
    listNotesApi { apiBase := "", enableFallback := false } (.ok []) []
      = .error "Backend unavailable and fallback disabled."
    ∧ deleteNoteApi { apiBase := "", enableFallback := false } (.ok ()) "1" []
      = .error "Backend unavailable and fallback disabled." :=
  ⟨(c9_unavailable_error { apiBase := "", enableFallback := false } rfl rfl).1 (.ok []) [],
   (c9_unavailable_error { apiBase := "", enableFallback := false } rfl rfl).2.2.2.2 (.ok ()) "1" []⟩

/-- C8: when refresh() fails with a non-empty message the store status
becomes error, the message is stored and the notes are untouched; when
list() succeeds the returned notes are stored and the status becomes
success. -/
theorem c8_refresh_store (st : Store) (e : String) (l : List Note)
    (he : e ≠ "") :
    ((refreshStore st (.error e)).status = .error
     ∧ (refreshStore st (.error e)).error = e
     ∧ (refreshStore st (.error e)).notes = st.notes)
    ∧ ((refreshStore st (.ok (some l))).notes = l
     ∧ (refreshStore st (.ok (some l))).status = .success) := by
  refine ⟨⟨rfl, ?_, rfl⟩, rfl, rfl⟩
  simp [refreshStore, jsOrStr, he]

/-- Witness for C8 at a concrete store, failure message and note list. -/
theorem c8_refresh_store_witness :
    ((refreshStore { notes := fallbackNotes 0, status := .idle, error := "" }
        (.error "Network down")).status = .error
     ∧ (refreshStore { notes := fallbackNotes 0, status := .idle, error := "" }
        (.error "Network down")).error = "Network down"
     ∧ (refreshStore { notes := fallbackNotes 0, status := .idle, error := "" }
        (.error "Network down")).notes = fallbackNotes 0)
    ∧ ((refreshStore { notes := fallbackNotes 0, status := .idle, error := "" }
        (.ok (some []))).notes = []
     ∧ (refreshStore { notes := fallbackNotes 0, status := .idle, error := "" }
        (.ok (some []))).status = .success) :=
  c8_refresh_store { notes := fallbackNotes 0, status := .idle, error := "" }
    "Network down" [] (by decide)

/-- C6 counterexample: the fallback deleteNote does not raise "not found".
With fallback enabled and the backend unreachable, deleting the id "zzz",
absent from the seeded dataset, succeeds with true and the dataset intact
instead of raising a failure. -/
theorem c6_delete_not_found_cex :
    (fallbackNotes 0).all (fun n => n.id ≠ "zzz") = true
    ∧ deleteNoteApi { apiBase := "", enableFallback := true } (.error "network down")
        "zzz" (fallbackNotes 0) = .ok (true, fallbackNotes 0) := by
  constructor
  · decide
  · rfl

/-- C6 as amended: with fallback enabled and the backend unreachable
(no base URL or failing remote), fallback getNote and updateNote raise
"Note not found" when no note with the given id exists, while fallback
deleteNote succeeds with true and leaves the dataset unchanged. -/
theorem c6_not_found_amended (cfg : Config) (rg ru : Except String Note)
    (rd : Except String Unit) (i : String) (p : Payload) (now : Nat)
    (s : List Note) (hfb : cfg.enableFallback = true)
    (hg : cfg.apiBase = "" ∨ isErr rg = true)
    (hu : cfg.apiBase = "" ∨ isErr ru = true)
    (hd : cfg.apiBase = "" ∨ isErr rd = true)
    (habs : ∀ n ∈ s, n.id ≠ i) :
    getNoteApi cfg rg i s = .error "Note not found"
    ∧ updateNoteApi cfg ru now i p s = .error "Note not found"
    ∧ deleteNoteApi cfg rd i s = .ok (true, s) := by
  refine ⟨?_, ?_, ?_⟩
  · rw [getNoteApi, runOp_fallback cfg rg _ hfb hg]
    have hfind : s.find? (fun n => n.id = i) = none := by
      apply List.find?_eq_none.mpr
      intro x hx
      simp [habs x hx]
    simp [getNoteFB, hfind]
  · rw [updateNoteApi, runOp_fallback cfg _ _ hfb]
    · exact updateNoteFB_not_found now i p s habs
    · rcases hu with h | h
      · exact Or.inl h
      · cases ru with
        | ok v => simp [isErr] at h
        | error e => exact Or.inr rfl
  · rw [deleteNoteApi, runOp_fallback cfg _ _ hfb]
    · have : s.filter (fun n => n.id ≠ i) = s := by
        apply List.filter_eq_self.mpr
        intro a ha
        simp [habs a ha]
      rw [this]
    · rcases hd with h | h
      · exact Or.inl h
      · cases rd with
        | ok v => simp [isErr] at h
        | error e => exact Or.inr rfl

/-- Witness for the amended C6 at the seeded dataset and the absent id
"zzz". -/
theorem c6_not_found_amended_witness :
    getNoteApi { apiBase := "", enableFallback := true } (.error "net") "zzz"
        (fallbackNotes 0) = .error "Note not found"
    ∧ updateNoteApi { apiBase := "", enableFallback := true } (.error "net") 3 "zzz"
        { title := some "T", content := none } (fallbackNotes 0)
        = .error "Note not found"
    ∧ deleteNoteApi { apiBase := "", enableFallback := true } (.error "net") "zzz"
        (fallbackNotes 0) = .ok (true, fallbackNotes 0) :=
  c6_not_found_amended { apiBase := "", enableFallback := true }
    (.error "net") (.error "net") (.error "net") "zzz"
    { title := some "T", content := none } 3 (fallbackNotes 0)
    rfl (Or.inl rfl) (Or.inl rfl) (Or.inl rfl) (by decide)

/-- C10: for an id whose first occurrence in the fallback dataset is the
note orig, fallback updateNote returns the note with the same id, the
payload fields overwritten, updatedAt refreshed, and the dataset with only
that entry replaced; every other note and the dataset length are
unchanged. -/
theorem c10_update_frame (now : Nat) (i : String) (p : Payload)
    (orig : Note) (l1 l2 : List Note) (hid : orig.id = i)
    (hl1 : ∀ n ∈ l1, n.id ≠ i) :
    updateNoteFB now i p (l1 ++ orig :: l2)
      = .ok ({ id := orig.id, title := p.title.getD orig.title,
               content := p.content.getD orig.content, updatedAt := now },
             l1 ++ { id := orig.id, title := p.title.getD orig.title,
                     content := p.content.getD orig.content, updatedAt := now } :: l2)
    ∧ (Note.id { id := orig.id, title := p.title.getD orig.title,
                 content := p.content.getD orig.content, updatedAt := now }) = i
    ∧ (l1 ++ ({ id := orig.id, title := p.title.getD orig.title,
                content := p.content.getD orig.content, updatedAt := now } : Note) :: l2).length
      = (l1 ++ orig :: l2).length := by
  refine ⟨updateNoteFB_replace_first now i p orig l2 hid l1 hl1, hid, by simp⟩

/-- Witness for C10: updating the seeded note by its id "1". -/
theorem c10_update_frame_witness :
    updateNoteFB 7 "1" { title := some "New title", content := none }
        ([] ++ ({ id := "1", title := "Welcome to Notes",
                  content := "This is a demo note from the fallback store.",
                  updatedAt := 0 } : Note) :: [])
      = .ok ({ id := "1", title := "New title",
               content := "This is a demo note from the fallback store.",
               updatedAt := 7 },
             [] ++ ({ id := "1", title := "New title",
                      content := "This is a demo note from the fallback store.",
                      updatedAt := 7 } : Note) :: []) :=
  (c10_update_frame 7 "1" { title := some "New title", content := none }
    { id := "1", title := "Welcome to Notes",
      content := "This is a demo note from the fallback store.", updatedAt := 0 }
    [] [] rfl (by decide)).1

/-- C7: with fallback enabled and the backend unreachable, listNotes returns
the dataset sorted by updatedAt descending (a permutation of the dataset in
pairwise descending order), createNote returns a note carrying the freshly
generated id and prepends it, and — the clock not running backwards — a
subsequent listNotes has that note as its first element. -/
theorem c7_fallback_list_create (cfg : Config)
    (r1 r3 : Except String (List Note)) (r2 : Except String Note)
    (newId : String) (now : Nat) (p : Payload) (s : List Note)
    (hfb : cfg.enableFallback = true)
    (h1 : cfg.apiBase = "" ∨ isErr r1 = true)
    (h2 : cfg.apiBase = "" ∨ isErr r2 = true)
    (h3 : cfg.apiBase = "" ∨ isErr r3 = true)
    (hmax : ∀ n ∈ s, n.updatedAt ≤ now) :
    listNotesApi cfg r1 s = .ok (sortByUpdatedAtDesc s)
    ∧ (sortByUpdatedAtDesc s).Perm s
    ∧ List.Pairwise (fun a b : Note => b.updatedAt ≤ a.updatedAt)
        (sortByUpdatedAtDesc s)
    ∧ createNoteApi cfg r2 newId now p s
        = .ok (mkFallbackNote newId now p, mkFallbackNote newId now p :: s)
    ∧ (mkFallbackNote newId now p).id = newId
    ∧ listNotesApi cfg r3 (mkFallbackNote newId now p :: s)
        = .ok (mkFallbackNote newId now p :: sortByUpdatedAtDesc s) := by
  have hr2 : cfg.apiBase = "" ∨ isErr (r2.map (fun n => (n, s))) = true := by
    rcases h2 with h | h
    · exact Or.inl h
    · cases r2 with
      | ok v => simp [isErr] at h
      | error e => exact Or.inr rfl
  refine ⟨?_, sortByUpdatedAtDesc_perm s, sortByUpdatedAtDesc_sorted s, ?_, rfl, ?_⟩
  · rw [listNotesApi, runOp_fallback cfg r1 _ hfb h1]
  · rw [createNoteApi, runOp_fallback cfg _ _ hfb hr2]
  · rw [listNotesApi, runOp_fallback cfg r3 _ hfb h3]
    have : sortByUpdatedAtDesc (mkFallbackNote newId now p :: s)
        = insertDesc (mkFallbackNote newId now p) (sortByUpdatedAtDesc s) := rfl
    rw [this, insertDesc_of_max]
    intro y hy
    exact hmax y ((sortByUpdatedAtDesc_perm s).mem_iff.mp hy)

/-- Witness for C7 at the seeded dataset, a later clock value and a concrete
generated id. -/
theorem c7_fallback_list_create_witness :
    listNotesApi { apiBase := "", enableFallback := true } (.error "net")
        (fallbackNotes 0) = .ok (sortByUpdatedAtDesc (fallbackNotes 0))
    ∧ (sortByUpdatedAtDesc (fallbackNotes 0)).Perm (fallbackNotes 0)
    ∧ List.Pairwise (fun a b : Note => b.updatedAt ≤ a.updatedAt)
        (sortByUpdatedAtDesc (fallbackNotes 0))
    ∧ createNoteApi { apiBase := "", enableFallback := true } (.error "net") "k7q2"
        5 { title := some "A", content := some "B" } (fallbackNotes 0)
        = .ok (mkFallbackNote "k7q2" 5 { title := some "A", content := some "B" },
               mkFallbackNote "k7q2" 5 { title := some "A", content := some "B" }
                 :: fallbackNotes 0)
    ∧ (mkFallbackNote "k7q2" 5 { title := some "A", content := some "B" }).id = "k7q2"
    ∧ listNotesApi { apiBase := "", enableFallback := true } (.error "net")
        (mkFallbackNote "k7q2" 5 { title := some "A", content := some "B" }
          :: fallbackNotes 0)
        = .ok (mkFallbackNote "k7q2" 5 { title := some "A", content := some "B" }
               :: sortByUpdatedAtDesc (fallbackNotes 0)) :=
  c7_fallback_list_create { apiBase := "", enableFallback := true }
    (.error "net") (.error "net") (.error "net") "k7q2" 5
    { title := some "A", content := some "B" } (fallbackNotes 0)
    rfl (Or.inl rfl) (Or.inl rfl) (Or.inl rfl) (by decide)

/-! ### Helper lemmas about the UI state machine -/

theorem applyEffect_notes (s : UIState) : (applyEffect s).notes = s.notes := by
  rcases s with ⟨notes, activeId, mode⟩
  cases notes with
  | nil => rfl
  | cons n rest =>
    simp only [applyEffect]
    split <;> rfl

theorem applyEffect_nil {t : UIState} (h : t.notes = []) :
    applyEffect t = { notes := t.notes, activeId := none, mode := .empty } := by
  rcases t with ⟨notes, activeId, mode⟩
  simp only at h
  subst h
  rfl

theorem applyEffect_cons_falsy {t : UIState} {n : Note} {l : List Note}
    (h : t.notes = n :: l) (hf : idFalsy t.activeId = true) :
    applyEffect t = { t with activeId := some n.id, mode := .viewing } := by
  rcases t with ⟨notes, activeId, mode⟩
  simp only at h
  subst h
  simp [applyEffect, hf]

theorem applyEffect_cons_truthy {t : UIState} {n : Note} {l : List Note}
    (h : t.notes = n :: l) (hf : idFalsy t.activeId = false) :
    applyEffect t = t := by
  rcases t with ⟨notes, activeId, mode⟩
  simp only at h
  subst h
  simp [applyEffect, hf]

theorem uiStep_notes (e : Event) (s : UIState) :
    (uiStep e s).notes = (stepEvent e s).1.notes := by
  unfold uiStep
  split
  · exact applyEffect_notes _
  · rfl

theorem uiStep_eq_applyEffect {e : Event} {s : UIState}
    (h : depsChanged e s = true) :
    uiStep e s = applyEffect (stepEvent e s).1 := by
  unfold depsChanged at h
  unfold uiStep
  split
  · rfl
  · rename_i hc
    exact absurd (by simpa using h) hc

theorem mkTempId_ne_empty (n : Nat) : mkTempId n ≠ "" := by
  intro h
  have h2 := congrArg String.length h
  rw [mkTempId, String.length_append] at h2
  simp at h2
  exact absurd h2.1 (by decide)

theorem head?_filter_eq_find? (p : Note → Bool) :
    ∀ l : List Note, (l.filter p).head? = l.find? p
  | [] => rfl
  | x :: xs => by
    cases h : p x <;>
      simp [List.filter_cons, List.find?_cons, h, head?_filter_eq_find? p xs]

theorem findActive_eq_some {s : UIState} {a : Note}
    (h : findActive s = some a) : s.activeId = some a.id ∧ a ∈ s.notes := by
  unfold findActive at h
  cases hid : s.activeId with
  | none => rw [hid] at h; exact absurd h (by simp)
  | some i =>
    rw [hid] at h
    have hmem := List.mem_of_find?_eq_some h
    have hp := List.find?_some h
    simp only [decide_eq_true_eq] at hp
    exact ⟨by rw [hp], hmem⟩

theorem noteIds_filter_nodup (p : Note → Bool) (s : List Note)
    (h : (noteIds s).Nodup) : (noteIds (s.filter p)).Nodup :=
  List.Nodup.sublist (List.Sublist.map Note.id (List.filter_sublist s)) h

theorem noteIds_map_replace (u : Note) (aid : String) (hu : u.id = aid) :
    ∀ l : List Note,
      noteIds (l.map (fun n => if n.id = aid then u else n)) = noteIds l
  | [] => rfl
  | n :: rest => by
    have ih := noteIds_map_replace u aid hu rest
    by_cases h : n.id = aid
    · have hun : u.id = n.id := by rw [hu, h]
      simp [noteIds, h, hun] at ih ⊢
      exact ih
    · simp [noteIds, h] at ih ⊢
      exact ih

theorem stepEvent_deleteDone_notes (snap : List Note) (d : String) (t : UIState) :
    (stepEvent (Event.deleteDone snap d) t).1.notes = t.notes := by
  simp only [stepEvent]
  split
  · split <;> rfl
  · rfl

theorem uiStep_saveCreatingOpt {s : UIState} (nowMs : Nat) (p : Payload)
    (hm : s.mode = .creating) :
    uiStep (Event.saveCreatingOpt nowMs p) s
      = { notes := mkOptimistic nowMs p :: s.notes,
          activeId := some (mkTempId nowMs), mode := .viewing } := by
  have hfalse : idFalsy (some (mkTempId nowMs)) = false := by
    simp [idFalsy, mkTempId_ne_empty nowMs]
  have hse : stepEvent (Event.saveCreatingOpt nowMs p) s
      = ({ notes := mkOptimistic nowMs p :: s.notes,
           activeId := some (mkTempId nowMs), mode := .viewing }, true) := by
    simp [stepEvent, hm]
  unfold uiStep
  rw [hse]
  rw [if_pos (by simp)]
  exact applyEffect_cons_truthy rfl hfalse

theorem uiStep_saveCreatingDone (s : UIState) (tempId : String) (created : Note) :
    uiStep (Event.saveCreatingDone tempId created) s
      = { notes := created :: s.notes.filter (fun n => n.id ≠ tempId),
          activeId := some created.id, mode := .viewing } := by
  have hse : stepEvent (Event.saveCreatingDone tempId created) s
      = ({ notes := created :: s.notes.filter (fun n => n.id ≠ tempId),
           activeId := some created.id, mode := .viewing }, true) := by
    simp [stepEvent]
  unfold uiStep
  rw [hse]
  rw [if_pos (by simp)]
  cases hf : idFalsy (some created.id) with
  | false => exact applyEffect_cons_truthy rfl hf
  | true => rw [applyEffect_cons_falsy rfl hf]

theorem uiStep_editOpt {s : UIState} {a : Note} (nowMs : Nat) (p : Payload)
    (hm : s.mode = .editing) (ha : findActive s = some a) (hid : a.id ≠ "") :
    uiStep (Event.editOpt nowMs p) s
      = { notes := s.notes.map (fun n => if n.id = a.id then mergeNote a p nowMs else n),
          activeId := s.activeId, mode := s.mode } := by
  rcases findActive_eq_some ha with ⟨hact, hmem⟩
  have hfalse : idFalsy s.activeId = false := by
    rw [hact]; simp [idFalsy, hid]
  have hse : stepEvent (Event.editOpt nowMs p) s
      = ({ notes := s.notes.map (fun n => if n.id = a.id then mergeNote a p nowMs else n),
           activeId := s.activeId, mode := s.mode }, true) := by
    simp [stepEvent, hm, ha]
  unfold uiStep
  rw [hse]
  rw [if_pos (by simp)]
  rcases hns : s.notes with _ | ⟨n0, rest⟩
  · rw [hns] at hmem; exact absurd hmem (List.not_mem_nil a)
  · exact applyEffect_cons_truthy
      (n := if n0.id = a.id then mergeNote a p nowMs else n0)
      (l := rest.map (fun n => if n.id = a.id then mergeNote a p nowMs else n))
      (by simp [hns]) hfalse

theorem uiStep_deleteOpt {s : UIState} {a : Note} (ha : findActive s = some a) :
    uiStep Event.deleteOpt s
      = applyEffect { notes := s.notes.filter (fun n => n.id ≠ a.id),
                      activeId := none, mode := .empty } := by
  have hse : stepEvent Event.deleteOpt s
      = ({ notes := s.notes.filter (fun n => n.id ≠ a.id),
           activeId := none, mode := .empty }, true) := by
    simp [stepEvent, ha]
  unfold uiStep
  rw [hse]
  rw [if_pos (by simp)]

theorem stepEvent_nodup (e : Event) (s : UIState) (hok : eventOK s e = true)
    (h : (noteIds s.notes).Nodup) : (noteIds (stepEvent e s).1.notes).Nodup := by
  cases e with
  | refreshOk data =>
    simp only [eventOK, decide_eq_true_eq] at hok
    simpa [stepEvent] using hok
  | refreshErr => exact h
  | select i => exact h
  | createClick => exact h
  | saveCreatingOpt nowMs p =>
    simp only [eventOK, decide_eq_true_eq] at hok
    by_cases hm : s.mode = .creating
    · simp only [stepEvent, hm, if_pos, if_true]
      simp only [noteIds, List.map_cons]
      exact List.nodup_cons.mpr ⟨hok, h⟩
    · simpa [stepEvent, hm] using h
  | saveCreatingDone tempId created =>
    simp only [eventOK, decide_eq_true_eq] at hok
    simp only [stepEvent, noteIds, List.map_cons]
    exact List.nodup_cons.mpr ⟨hok, noteIds_filter_nodup _ _ h⟩
  | saveCreatingFail => exact h
  | editOpt nowMs p =>
    by_cases hm : s.mode = .editing
    · cases hfa : findActive s with
      | none => simpa [stepEvent, hm, hfa] using h
      | some a =>
        simp only [stepEvent, hm, if_pos, hfa, if_true]
        rw [noteIds_map_replace (mergeNote a p nowMs) a.id rfl]
        exact h
    · simpa [stepEvent, hm] using h
  | editDone => exact h
  | deleteOpt =>
    cases hfa : findActive s with
    | none => simpa [stepEvent, hfa] using h
    | some a =>
      simp only [stepEvent, hfa]
      exact noteIds_filter_nodup _ _ h
  | deleteDone snapshot deletedId =>
    rw [stepEvent_deleteDone_notes]
    exact h

theorem runTrace_nodup :
    ∀ (evs : List Event) (s : UIState), traceOK s evs = true →
      (noteIds s.notes).Nodup → (noteIds (runTrace s evs).notes).Nodup
  | [], _, _, h => h
  | e :: es, s, hok, h => by
    simp only [traceOK, Bool.and_eq_true] at hok
    refine runTrace_nodup es (uiStep e s) hok.2 ?_
    rw [uiStep_notes]
    exact stepEvent_nodup e s hok.1 h

/-! ### Claims about the orchestration handlers -/

/-- C1: along every event trace whose environment satisfies the data-model
assumptions (mocked backend lists and server ids fresh, temporary ids
fresh), the notes collection keeps unique ids; the create-success batch
replaces the temporary-id entry (removing it and inserting the server
note); the delete batch removes every entry carrying the deleted id. -/
theorem c1_unique_ids :
    (∀ (s : UIState) (evs : List Event), traceOK s evs = true →
      (noteIds s.notes).Nodup → (noteIds (runTrace s evs).notes).Nodup)
    ∧ (∀ (s : UIState) (tempId : String) (created : Note),
      (uiStep (Event.saveCreatingDone tempId created) s).notes
        = created :: s.notes.filter (fun n => n.id ≠ tempId))
    ∧ (∀ (s : UIState) (a : Note), findActive s = some a →
      ∀ n ∈ (uiStep Event.deleteOpt s).notes, n.id ≠ a.id) := by
  refine ⟨fun s evs hok h => runTrace_nodup evs s hok h,
    fun s tempId created => ?_, fun s a ha n hn => ?_⟩
  · rw [uiStep_saveCreatingDone]
  · rw [uiStep_deleteOpt ha, applyEffect_notes] at hn
    simp only [List.mem_filter, decide_eq_true_eq] at hn
    exact hn.2

/-- Witness for C1: a create-and-delete trace from the initial state keeps
the ids duplicate-free. -/
theorem c1_unique_ids_witness :
    (noteIds (runTrace initState
      [Event.createClick,
       Event.saveCreatingOpt 7 { title := some "T1", content := some "" },
       Event.saveCreatingDone "temp_7"
         { id := "9", title := "T1", content := "", updatedAt := 8 },
       Event.deleteOpt]).notes).Nodup :=
  c1_unique_ids.1 initState
    [Event.createClick,
     Event.saveCreatingOpt 7 { title := some "T1", content := some "" },
     Event.saveCreatingDone "temp_7"
       { id := "9", title := "T1", content := "", updatedAt := 8 },
     Event.deleteOpt]
    (by decide) (by decide)

/-- C2: in creating mode the save handler prepends the optimistic note with
the temporary id, activates the temporary id with mode viewing, and the
create-success continuation replaces the temporary entry with the server
note, activating the server id with mode viewing. -/
theorem c2_create_handler (s : UIState) (nowMs : Nat) (p : Payload)
    (created : Note) (hm : s.mode = .creating) :
    uiStep (Event.saveCreatingOpt nowMs p) s
      = { notes := mkOptimistic nowMs p :: s.notes,
          activeId := some (mkTempId nowMs), mode := .viewing }
    ∧ uiStep (Event.saveCreatingDone (mkTempId nowMs) created)
        (uiStep (Event.saveCreatingOpt nowMs p) s)
      = { notes := created :: s.notes.filter (fun n => n.id ≠ mkTempId nowMs),
          activeId := some created.id, mode := .viewing } := by
  have h1 := uiStep_saveCreatingOpt nowMs p hm
  refine ⟨h1, ?_⟩
  rw [h1, uiStep_saveCreatingDone]
  have hfil : (mkOptimistic nowMs p :: s.notes).filter (fun n => n.id ≠ mkTempId nowMs)
      = s.notes.filter (fun n => n.id ≠ mkTempId nowMs) := by
    simp [List.filter_cons, mkOptimistic]
  rw [hfil]

/-- Witness for C2 at the empty creating state, clock 7 and a server note
with id 9. -/
theorem c2_create_handler_witness :
    uiStep (Event.saveCreatingOpt 7 { title := some "T1", content := some "" })
        { notes := [], activeId := none, mode := Mode.creating }
      = { notes := [mkOptimistic 7 { title := some "T1", content := some "" }],
          activeId := some (mkTempId 7), mode := .viewing }
    ∧ uiStep (Event.saveCreatingDone (mkTempId 7)
          { id := "9", title := "T1", content := "", updatedAt := 8 })
        (uiStep (Event.saveCreatingOpt 7 { title := some "T1", content := some "" })
          { notes := [], activeId := none, mode := Mode.creating })
      = { notes := [{ id := "9", title := "T1", content := "", updatedAt := 8 }],
          activeId := some "9", mode := .viewing } :=
  c2_create_handler { notes := [], activeId := none, mode := Mode.creating } 7
    { title := some "T1", content := some "" }
    { id := "9", title := "T1", content := "", updatedAt := 8 } rfl

/-- C3: with an active note and user confirmation, handleDelete's optimistic
batch removes the note, clears the active id and sets mode empty; on server
failure it triggers refresh() and the removal stands; on server success the
removal stands without refresh and, when the pre-deletion snapshot held more
than one note, the first snapshot note with a different id becomes active in
viewing mode; deleting the only note leaves the empty mode and no active id;
without confirmation nothing happens. -/
theorem c3_delete_handler (s : UIState) (a : Note) (ha : findActive s = some a) :
    stepEvent Event.deleteOpt s
      = ({ s with notes := s.notes.filter (fun n => n.id ≠ a.id),
                  activeId := none, mode := .empty }, true)
    ∧ (∀ e, (runDelete s true (.error e)).2 = true
        ∧ (runDelete s true (.error e)).1.notes
            = s.notes.filter (fun n => n.id ≠ a.id))
    ∧ (∀ b, (runDelete s true (.ok b)).2 = false
        ∧ (runDelete s true (.ok b)).1.notes
            = s.notes.filter (fun n => n.id ≠ a.id)
        ∧ (s.notes.length > 1 →
            ∀ next, s.notes.find? (fun n => n.id ≠ a.id) = some next →
              (runDelete s true (.ok b)).1.activeId = some next.id
              ∧ (runDelete s true (.ok b)).1.mode = .viewing))
    ∧ (∀ b, s.notes = [a] →
        runDelete s true (.ok b)
          = ({ notes := [], activeId := none, mode := .empty }, false))
    ∧ (∀ r, runDelete s false r = (s, false)) := by
  have hde : ∀ res : Except String Bool, runDelete s true res
      = match res with
        | .ok _ => (uiStep (Event.deleteDone s.notes a.id) (uiStep Event.deleteOpt s), false)
        | .error _ => (uiStep Event.deleteOpt s, true) := by
    intro res
    unfold runDelete
    rw [ha]
    simp only [Bool.not_true, Bool.false_eq_true, if_false]
  refine ⟨by simp [stepEvent, ha], fun e => ?_, fun b => ?_, fun b hs => ?_, fun r => ?_⟩
  · rw [hde]
    exact ⟨rfl, by rw [uiStep_deleteOpt ha, applyEffect_notes]⟩
  · rw [hde]
    refine ⟨rfl, ?_, ?_⟩
    · rw [uiStep_notes, stepEvent_deleteDone_notes, uiStep_deleteOpt ha, applyEffect_notes]
    · intro hl next hnext
      have hhead : (s.notes.filter (fun n => n.id ≠ a.id)).head? = some next := by
        rw [head?_filter_eq_find?]
        exact hnext
      rcases hrem : s.notes.filter (fun n => n.id ≠ a.id) with _ | ⟨r0, rt⟩
      · rw [hrem] at hhead; exact absurd hhead (by simp)
      · rw [hrem] at hhead
        have hr0 : r0 = next := by simpa using hhead
        subst hr0
        have hs1 : uiStep Event.deleteOpt s
            = { notes := s.notes.filter (fun n => n.id ≠ a.id),
                activeId := some r0.id, mode := Mode.viewing } := by
          rw [uiStep_deleteOpt ha]
          rw [applyEffect_cons_falsy
            (t := { notes := s.notes.filter (fun n => n.id ≠ a.id),
                    activeId := none, mode := Mode.empty })
            (n := r0) (l := rt) (by simpa using hrem) rfl]
        rw [hs1]
        have hse2 : stepEvent (Event.deleteDone s.notes a.id)
              { notes := s.notes.filter (fun n => n.id ≠ a.id),
                activeId := some r0.id, mode := Mode.viewing }
            = ({ notes := s.notes.filter (fun n => n.id ≠ a.id),
                 activeId := some r0.id, mode := Mode.viewing }, false) := by
          simp only [stepEvent]
          rw [if_pos hl, hnext]
        unfold uiStep
        rw [hse2]
        simp
  · rw [hde]
    have hremnil : s.notes.filter (fun n => n.id ≠ a.id) = [] := by
      rw [hs]; simp
    have hs1 : uiStep Event.deleteOpt s
        = { notes := [], activeId := none, mode := Mode.empty } := by
      rw [uiStep_deleteOpt ha, hremnil]
      rfl
    rw [hs1]
    have hse2 : stepEvent (Event.deleteDone s.notes a.id)
          { notes := [], activeId := none, mode := Mode.empty }
        = ({ notes := [], activeId := none, mode := Mode.empty }, false) := by
      simp [stepEvent, hs]
    unfold uiStep
    rw [hse2]
    simp
  · unfold runDelete
    rw [ha]
    simp

/-- Witness for C3: deleting note 1 of a two-note list selects note 2 on
success and flags a refresh on failure; deleting the only note empties the
state. -/
theorem c3_delete_handler_witness :
    (runDelete { notes := [{ id := "1", title := "a", content := "", updatedAt := 0 },
                           { id := "2", title := "b", content := "", updatedAt := 0 }],
                 activeId := some "1", mode := Mode.viewing } true (.error "net")).2 = true
    ∧ (runDelete { notes := [{ id := "1", title := "a", content := "", updatedAt := 0 },
                             { id := "2", title := "b", content := "", updatedAt := 0 }],
                   activeId := some "1", mode := Mode.viewing } true (.ok true)).1.activeId
        = some (Note.id { id := "2", title := "b", content := "", updatedAt := 0 })
    ∧ (runDelete { notes := [{ id := "1", title := "a", content := "", updatedAt := 0 },
                             { id := "2", title := "b", content := "", updatedAt := 0 }],
                   activeId := some "1", mode := Mode.viewing } true (.ok true)).1.mode
        = Mode.viewing
    ∧ runDelete { notes := [{ id := "1", title := "a", content := "", updatedAt := 0 }],
                  activeId := some "1", mode := Mode.viewing } true (.ok true)
        = ({ notes := [], activeId := none, mode := .empty }, false) :=
  ⟨((c3_delete_handler
      { notes := [{ id := "1", title := "a", content := "", updatedAt := 0 },
                  { id := "2", title := "b", content := "", updatedAt := 0 }],
        activeId := some "1", mode := Mode.viewing }
      { id := "1", title := "a", content := "", updatedAt := 0 } rfl).2.1 "net").1,
   (((c3_delete_handler
      { notes := [{ id := "1", title := "a", content := "", updatedAt := 0 },
                  { id := "2", title := "b", content := "", updatedAt := 0 }],
        activeId := some "1", mode := Mode.viewing }
      { id := "1", title := "a", content := "", updatedAt := 0 } rfl).2.2.1 true).2.2
      (by decide) { id := "2", title := "b", content := "", updatedAt := 0 } rfl).1,
   (((c3_delete_handler
      { notes := [{ id := "1", title := "a", content := "", updatedAt := 0 },
                  { id := "2", title := "b", content := "", updatedAt := 0 }],
        activeId := some "1", mode := Mode.viewing }
      { id := "1", title := "a", content := "", updatedAt := 0 } rfl).2.2.1 true).2.2
      (by decide) { id := "2", title := "b", content := "", updatedAt := 0 } rfl).2,
   (c3_delete_handler
      { notes := [{ id := "1", title := "a", content := "", updatedAt := 0 }],
        activeId := some "1", mode := Mode.viewing }
      { id := "1", title := "a", content := "", updatedAt := 0 } rfl).2.2.2.1 true rfl⟩

/-- C4 counterexample: refresh() is not unconditional. When updateNote fails
(here with "boom") on an editing state with an active note, the update
handler reaches the catch block without invoking refresh() (flag false) and
without setting the mode to viewing (it stays editing). -/
theorem c4_refresh_conditional_cex :
    (runSaveEditing
        { notes := [{ id := "1", title := "t", content := "c", updatedAt := 0 }],
          activeId := some "1", mode := Mode.editing } 5
        { title := some "t2", content := some "c2" } (.error "boom") (.ok none)).2
      = false
    ∧ (runSaveEditing
        { notes := [{ id := "1", title := "t", content := "c", updatedAt := 0 }],
          activeId := some "1", mode := Mode.editing } 5
        { title := some "t2", content := some "c2" } (.error "boom") (.ok none)).1.mode
      = Mode.editing := by
  constructor <;> rfl

/-- C4 as amended: in editing mode with an active note whose id is truthy,
the update handler optimistically merges the payload into that note; when
update() succeeds it calls refresh() (whose result replaces the collection
on success and leaves the optimistic merge on failure) and sets the mode to
viewing; when update() fails it calls neither refresh() nor setMode, leaving
the merged collection, the active id and the editing mode in place. -/
theorem c4_update_handler_amended (s : UIState) (nowMs : Nat) (p : Payload)
    (a : Note) (updRes : Except String Note)
    (listRes : Except String (Option (List Note)))
    (hm : s.mode = .editing) (ha : findActive s = some a) (hid : a.id ≠ "") :
    (∀ e, updRes = .error e →
      runSaveEditing s nowMs p updRes listRes
        = ({ notes := s.notes.map (fun n => if n.id = a.id then mergeNote a p nowMs else n),
             activeId := s.activeId, mode := s.mode }, false))
    ∧ (∀ u, updRes = .ok u →
      (runSaveEditing s nowMs p updRes listRes).2 = true
      ∧ (runSaveEditing s nowMs p updRes listRes).1.mode = .viewing
      ∧ (∀ d, listRes = .ok d →
          (runSaveEditing s nowMs p updRes listRes).1.notes = d.getD [])
      ∧ (∀ e, listRes = .error e →
          (runSaveEditing s nowMs p updRes listRes).1.notes
            = s.notes.map (fun n => if n.id = a.id then mergeNote a p nowMs else n))) := by
  have hs1 := uiStep_editOpt nowMs p hm ha hid
  have hrse : runSaveEditing s nowMs p updRes listRes
      = match updRes with
        | .error _ => (uiStep (Event.editOpt nowMs p) s, false)
        | .ok _ =>
          ({ (match listRes with
              | .ok data =>
                uiStep (Event.refreshOk (data.getD [])) (uiStep (Event.editOpt nowMs p) s)
              | .error _ => uiStep (Event.editOpt nowMs p) s) with
             mode := Mode.viewing }, true) := by
    unfold runSaveEditing
    rw [hm, ha]
    rfl
  constructor
  · intro e he
    subst he
    rw [hrse, hs1]
  · intro u hu
    subst hu
    rw [hrse]
    refine ⟨rfl, rfl, fun d hd => ?_, fun e he => ?_⟩
    · subst hd
      rw [uiStep_notes]
      rfl
    · subst he
      rw [hs1]

/-- Witness for the amended C4: a successful update on a one-note editing
state flags the refresh, ends in viewing mode, and on refresh failure keeps
the optimistically merged collection. -/
theorem c4_update_handler_amended_witness :
    (runSaveEditing
        { notes := [{ id := "1", title := "t", content := "c", updatedAt := 0 }],
          activeId := some "1", mode := Mode.editing } 5
        { title := some "t2", content := some "c2" }
        (.ok { id := "1", title := "t2", content := "c2", updatedAt := 6 })
        (.error "net")).2 = true
    ∧ (runSaveEditing
        { notes := [{ id := "1", title := "t", content := "c", updatedAt := 0 }],
          activeId := some "1", mode := Mode.editing } 5
        { title := some "t2", content := some "c2" }
        (.ok { id := "1", title := "t2", content := "c2", updatedAt := 6 })
        (.error "net")).1.mode = .viewing
    ∧ (runSaveEditing
        { notes := [{ id := "1", title := "t", content := "c", updatedAt := 0 }],
          activeId := some "1", mode := Mode.editing } 5
        { title := some "t2", content := some "c2" }
        (.ok { id := "1", title := "t2", content := "c2", updatedAt := 6 })
        (.error "net")).1.notes
      = [{ id := "1", title := "t", content := "c", updatedAt := 0 }].map
          (fun n => if n.id = Note.id { id := "1", title := "t", content := "c", updatedAt := 0 }
            then mergeNote { id := "1", title := "t", content := "c", updatedAt := 0 }
              { title := some "t2", content := some "c2" } 5 else n) :=
  ⟨((c4_update_handler_amended
      { notes := [{ id := "1", title := "t", content := "c", updatedAt := 0 }],
        activeId := some "1", mode := Mode.editing } 5
      { title := some "t2", content := some "c2" }
      { id := "1", title := "t", content := "c", updatedAt := 0 }
      (.ok { id := "1", title := "t2", content := "c2", updatedAt := 6 })
      (.error "net") rfl rfl (by decide)).2
      { id := "1", title := "t2", content := "c2", updatedAt := 6 } rfl).1,
   ((c4_update_handler_amended
      { notes := [{ id := "1", title := "t", content := "c", updatedAt := 0 }],
        activeId := some "1", mode := Mode.editing } 5
      { title := some "t2", content := some "c2" }
      { id := "1", title := "t", content := "c", updatedAt := 0 }
      (.ok { id := "1", title := "t2", content := "c2", updatedAt := 6 })
      (.error "net") rfl rfl (by decide)).2
      { id := "1", title := "t2", content := "c2", updatedAt := 6 } rfl).2.1,
   ((c4_update_handler_amended
      { notes := [{ id := "1", title := "t", content := "c", updatedAt := 0 }],
        activeId := some "1", mode := Mode.editing } 5
      { title := some "t2", content := some "c2" }
      { id := "1", title := "t", content := "c", updatedAt := 0 }
      (.ok { id := "1", title := "t2", content := "c2", updatedAt := 6 })
      (.error "net") rfl rfl (by decide)).2
      { id := "1", title := "t2", content := "c2", updatedAt := 6 } rfl).2.2.2 "net" rfl⟩

/-- C5 counterexample: the reactive rule does not fire after every step.
Clicking create from the initial empty state changes neither the notes
array nor the active id, so the effect is skipped: the collection is empty
yet the mode is creating, not empty. -/
theorem c5_reactive_rule_cex :
    (uiStep Event.createClick initState).notes = []
    ∧ (uiStep Event.createClick initState).mode = Mode.creating
    ∧ (uiStep Event.createClick initState).mode ≠ Mode.empty := by
  exact ⟨rfl, rfl, by decide⟩

/-- C5 as amended: after every step whose batch called setNotes or changed
the active id, the reactive rule holds: an empty collection ends with no
active id and mode empty, and a batch that commits a non-empty collection
while the active id is still falsy ends with the first note active and mode
viewing. The optimistic batch of an
in-flight create leaves a non-empty collection with the temporary id active
and mode viewing, so the rule does not disturb it; and clicking create when
no note is active changes no dependency, so creating mode survives even
with an empty collection. -/
theorem c5_reactive_rule_amended (e : Event) (s : UIState) :
    (depsChanged e s = true → (uiStep e s).notes = [] →
      (uiStep e s).activeId = none ∧ (uiStep e s).mode = .empty)
    ∧ (depsChanged e s = true →
      ∀ n rest, (stepEvent e s).1.notes = n :: rest →
        idFalsy (stepEvent e s).1.activeId = true →
        (uiStep e s).activeId = some n.id ∧ (uiStep e s).mode = .viewing)
    ∧ (∀ nowMs p, s.mode = .creating →
      uiStep (Event.saveCreatingOpt nowMs p) s
        = { notes := mkOptimistic nowMs p :: s.notes,
            activeId := some (mkTempId nowMs), mode := .viewing })
    ∧ (s.activeId = none →
      uiStep Event.createClick s
        = { notes := s.notes, activeId := none, mode := .creating }) := by
  refine ⟨fun hd hnil => ?_, fun hd n rest hcons hfal => ?_,
    fun nowMs p hm => uiStep_saveCreatingOpt nowMs p hm, fun hact => ?_⟩
  · rw [uiStep_eq_applyEffect hd] at hnil ⊢
    have htn : (stepEvent e s).1.notes = [] := by
      rw [← applyEffect_notes (stepEvent e s).1]
      exact hnil
    rw [applyEffect_nil htn]
    exact ⟨rfl, rfl⟩
  · rw [uiStep_eq_applyEffect hd]
    rw [applyEffect_cons_falsy hcons hfal]
    exact ⟨rfl, rfl⟩
  · have hse : stepEvent Event.createClick s
        = ({ s with mode := .creating, activeId := none }, false) := by
      simp [stepEvent]
    unfold uiStep
    rw [hse, if_neg (by simp [hact])]

/-- Witness for the amended C5: refreshing to an empty list clears the
active id and empties the mode; the initial load of a note into the
no-active initial state activates that first note in viewing mode; and
clicking create from the initial state keeps creating mode with the empty
collection. -/
theorem c5_reactive_rule_amended_witness :
    ((uiStep (Event.refreshOk [])
        { notes := [{ id := "1", title := "a", content := "", updatedAt := 0 }],
          activeId := some "1", mode := Mode.viewing }).activeId = none
     ∧ (uiStep (Event.refreshOk [])
        { notes := [{ id := "1", title := "a", content := "", updatedAt := 0 }],
          activeId := some "1", mode := Mode.viewing }).mode = .empty)
    ∧ ((uiStep (Event.refreshOk [{ id := "1", title := "a", content := "", updatedAt := 0 }])
          initState).activeId
        = some (Note.id { id := "1", title := "a", content := "", updatedAt := 0 })
     ∧ (uiStep (Event.refreshOk [{ id := "1", title := "a", content := "", updatedAt := 0 }])
          initState).mode = .viewing)
    ∧ uiStep Event.createClick initState
        = { notes := initState.notes, activeId := none, mode := .creating } :=
  ⟨(c5_reactive_rule_amended (Event.refreshOk [])
      { notes := [{ id := "1", title := "a", content := "", updatedAt := 0 }],
        activeId := some "1", mode := Mode.viewing }).1 rfl rfl,
   (c5_reactive_rule_amended
      (Event.refreshOk [{ id := "1", title := "a", content := "", updatedAt := 0 }])
      initState).2.1 rfl
      { id := "1", title := "a", content := "", updatedAt := 0 } [] rfl rfl,
   (c5_reactive_rule_amended Event.createClick initState).2.2.2 rfl⟩
